import Mathlib

/-!
# Verification of the Wanderer Albay guide application

A shallow embedding, in Lean 4, of the algorithmic core of the
`wanderer-albay-guide-remake` web application:

* the preference-based recommendation scorers of
  `src/components/PersonalizedFeed.tsx` (`fetchSpots`) and
  `src/components/RecommendedSpots.tsx` (`fetchRecommendedSpots`),
* the district-to-municipality matching used by those scorers and by
  `NearbyRestaurants`' `getDistrictMunicipalities`,
* the itinerary scheduler `generateSchedule` and the selection toggle
  `toggleSpot` of `src/pages/Itinerary.tsx`,
* the OTP-issuing edge function `supabase/functions/send-otp/index.ts`,
* the error-branch effects at the network call sites of the components.

JavaScript strings are modelled as Lean `String`, JavaScript numbers as `ℚ`
(all arithmetic performed by the embedded code is exact on rationals),
nullable / possibly-undefined values as `Option`, and the nondeterministic
environment of the edge function (existing users, database and email
failures, `Math.random()`) as an explicit environment record.
-/

/-! ## String helpers

`strHasPrefixList big pat` decides whether `pat` is an initial segment of
`big`; `strIncludes big pat` models JavaScript's
`big.includes(pat)` (contiguous-substring test), and `lowerIncludes`
models `big.toLowerCase().includes(pat.toLowerCase())`. -/

/-- Tests whether `pat` occurs at the start of `big` (both as character lists). -/
def strHasPrefixList : List Char → List Char → Bool
  | _, [] => true
  | [], _ :: _ => false
  | a :: as, b :: bs => a == b && strHasPrefixList as bs

/-- Tests whether `pat` occurs contiguously somewhere in `big`. -/
def strOccurs : List Char → List Char → Bool
  | [], pat => pat.isEmpty
  | a :: rest, pat => strHasPrefixList (a :: rest) pat || strOccurs rest pat

/-- JavaScript `big.includes(pat)`. -/
def strIncludes (big pat : String) : Bool :=
  strOccurs big.data pat.data

/-- JavaScript `big.toLowerCase().includes(pat.toLowerCase())`. -/
def lowerIncludes (big pat : String) : Bool :=
  strIncludes big.toLower pat.toLower

/-! ## District-to-municipality matching

Three places in the source map the district names `"District 1"`,
`"District 2"`, `"District 3"` to municipality lists and test a spot's
`municipality` string against them with `municipality.includes(m)`:

* `PersonalizedFeed.tsx`, inside `fetchSpots` (lines 146-165);
* `RecommendedSpots.tsx`, inside `fetchRecommendedSpots` (lines 69-89);
* `NearbyRestaurants`' helper `getDistrictMunicipalities`
  (`RecommendedSpots.tsx` lines 283-297).

Each function below transcribes the corresponding literal lists. -/

/-- District membership test of `PersonalizedFeed.fetchSpots`:
`District 1 ↦ Bacacay…Tabaco`, `District 2 ↦ Camalig, Guinobatan, Ligao,
Jovellar`, `District 3 ↦ Legazpi, Daraga, Manito, Rapu-Rapu`; a district
matches when the spot's municipality string `includes` one of the listed
municipality names. -/
def pfDistrictMatch (district municipality : String) : Bool :=
  if district = "District 1" then
    (["Bacacay", "Malilipot", "Malinao", "Santo Domingo", "Tiwi", "Tabaco"]).any
      fun m => strIncludes municipality m
  else if district = "District 2" then
    (["Camalig", "Guinobatan", "Ligao", "Jovellar"]).any
      fun m => strIncludes municipality m
  else if district = "District 3" then
    (["Legazpi", "Daraga", "Manito", "Rapu-Rapu"]).any
      fun m => strIncludes municipality m
  else
    false

/-- District membership test of `RecommendedSpots.fetchRecommendedSpots`:
`District 1 ↦ Bacacay…Tabaco`, `District 2 ↦ Legazpi, Camalig, Daraga,
Manito, Rapu-Rapu`, `District 3 ↦ Guinobatan, Ligao, Oas, Pio Duran,
Polangui, Jovellar`. -/
def rsDistrictMatch (district municipality : String) : Bool :=
  if district = "District 1" then
    (["Bacacay", "Malilipot", "Malinao", "Santo Domingo", "Tiwi", "Tabaco"]).any
      fun m => strIncludes municipality m
  else if district = "District 2" then
    (["Legazpi", "Camalig", "Daraga", "Manito", "Rapu-Rapu"]).any
      fun m => strIncludes municipality m
  else if district = "District 3" then
    (["Guinobatan", "Ligao", "Oas", "Pio Duran", "Polangui", "Jovellar"]).any
      fun m => strIncludes municipality m
  else
    false

/-- Transcribes `NearbyRestaurants.getDistrictMunicipalities`
(`RecommendedSpots.tsx` lines 283-297): accumulates the municipality
lists of the given districts by pushing literals into an array. -/
def getDistrictMunicipalities (districts : List String) : List String :=
  districts.foldl
    (fun municipalities district =>
      if district = "District 1" then
        municipalities ++ ["Bacacay", "Malilipot", "Malinao", "Santo Domingo", "Tiwi", "Tabaco"]
      else if district = "District 2" then
        municipalities ++ ["Legazpi", "Camalig", "Daraga", "Manito", "Rapu-Rapu"]
      else if district = "District 3" then
        municipalities ++ ["Guinobatan", "Ligao", "Oas", "Pio Duran", "Polangui", "Jovellar"]
      else
        municipalities)
    []

/-- Membership test of `NearbyRestaurants.fetchRestaurants` (lines 269-272):
a restaurant matches when its municipality `includes` one of
`getDistrictMunicipalities userDistricts`. -/
def nrDistrictMatch (districts : List String) (municipality : String) : Bool :=
  (getDistrictMunicipalities districts).any fun m => strIncludes municipality m

/-! ## Tourist spots, preferences, and the two scorers -/

/-- The fields of a row of `tourist_spots` that the scorers read.
`municipality` and `category` are nullable in the database (the code
guards them with `spot.municipality?` and `spot.category &&`), `rating`
is a JavaScript number (modelled as `ℚ`; `if (spot.rating)` is the
JavaScript truthiness test `rating ≠ 0`). -/
structure Spot where
  id : String
  municipality : Option String
  category : Option (List String)
  rating : ℚ
  hiddenGem : Bool
deriving Repr, DecidableEq

/-- The `user_preferences` record read by `PersonalizedFeed`
(`preferences.categories`, `preferences.subcategories`,
`preferences.districts`, each possibly absent). -/
structure PFPreferences where
  categories : Option (List String)
  subcategories : Option (List String)
  districts : Option (List String)
deriving Repr, DecidableEq

/-- The `UserPreferences` prop of `RecommendedSpots`
(`interests`, `districts`; the code guards both with `&&`,
so each is modelled as possibly absent). -/
structure RSPreferences where
  interests : Option (List String)
  districts : Option (List String)
deriving Repr, DecidableEq

/-- A spot together with the score attached by `data.map(spot => ({ ...spot, score }))`. -/
structure Scored where
  spot : Spot
  score : ℚ
deriving Repr, DecidableEq

/-- Category-match term of `PersonalizedFeed.fetchSpots` (lines 125-133):
`matchingCategories.length * 5`, where a preference category matches when
some spot category contains it or is contained in it (case-insensitively);
`0` when `preferences.categories` or `spot.category` is absent. -/
def pfCategoryWeight (p : PFPreferences) (s : Spot) : ℚ :=
  match p.categories, s.category with
  | some cats, some spotCats =>
      ((cats.filter fun cat =>
          spotCats.any fun spotCat =>
            lowerIncludes spotCat cat || lowerIncludes cat spotCat).length : ℚ) * 5
  | _, _ => 0

/-- Subcategory-match term of `PersonalizedFeed.fetchSpots` (lines 136-143):
`matchingSubcategories.length * 3`, a subcategory matching when some spot
category contains it (case-insensitively). -/
def pfSubcategoryWeight (p : PFPreferences) (s : Spot) : ℚ :=
  match p.subcategories, s.category with
  | some subs, some spotCats =>
      ((subs.filter fun sub =>
          spotCats.any fun spotCat => lowerIncludes spotCat sub).length : ℚ) * 3
  | _, _ => 0

/-- District term of `PersonalizedFeed.fetchSpots` (lines 146-166): `10`
when the (truthy, i.e. non-empty) municipality matches some preferred
district, else `0`. -/
def pfDistrictBonus (p : PFPreferences) (s : Spot) : ℚ :=
  match p.districts, s.municipality with
  | some districts, some m =>
      if m ≠ "" then
        (if districts.any fun district => pfDistrictMatch district m then 10 else 0)
      else 0
  | _, _ => 0

/-- Hidden-gem term of `PersonalizedFeed.fetchSpots` (line 169). -/
def pfHiddenGemBonus (s : Spot) : ℚ :=
  if s.hiddenGem then 5 else 0

/-- Rating term of `PersonalizedFeed.fetchSpots` (line 172):
`(rating / 5) * 3` for truthy rating. -/
def pfRatingTerm (s : Spot) : ℚ :=
  if s.rating ≠ 0 then s.rating / 5 * 3 else 0

/-- The score accumulated by `PersonalizedFeed.fetchSpots` (lines 121-175),
transcribed as the same sequence of guarded `score += …` updates. -/
def pfScore (p : PFPreferences) (s : Spot) : ℚ :=
  let score : ℚ := 0
  let score :=
    match p.categories, s.category with
    | some cats, some spotCats =>
        score + ((cats.filter fun cat =>
            spotCats.any fun spotCat =>
              lowerIncludes spotCat cat || lowerIncludes cat spotCat).length : ℚ) * 5
    | _, _ => score
  let score :=
    match p.subcategories, s.category with
    | some subs, some spotCats =>
        score + ((subs.filter fun sub =>
            spotCats.any fun spotCat => lowerIncludes spotCat sub).length : ℚ) * 3
    | _, _ => score
  let score :=
    match p.districts, s.municipality with
    | some districts, some m =>
        if m ≠ "" then
          (if districts.any fun district => pfDistrictMatch district m then score + 10 else score)
        else score
    | _, _ => score
  let score := if s.hiddenGem then score + 5 else score
  let score := if s.rating ≠ 0 then score + s.rating / 5 * 3 else score
  score

/-- Interest-match term of `RecommendedSpots.fetchRecommendedSpots`
(lines 58-66): `matchingInterests.length * 3` with the bidirectional
case-insensitive containment test. -/
def rsInterestWeight (p : RSPreferences) (s : Spot) : ℚ :=
  match p.interests, s.category with
  | some interests, some spotCats =>
      ((interests.filter fun interest =>
          spotCats.any fun cat =>
            lowerIncludes interest cat || lowerIncludes cat interest).length : ℚ) * 3
  | _, _ => 0

/-- District term of `RecommendedSpots.fetchRecommendedSpots`
(lines 69-89): `5` on a district match. -/
def rsDistrictBonus (p : RSPreferences) (s : Spot) : ℚ :=
  match p.districts, s.municipality with
  | some districts, some m =>
      if m ≠ "" then
        (if districts.any fun district => rsDistrictMatch district m then 5 else 0)
      else 0
  | _, _ => 0

/-- Hidden-gem term of `RecommendedSpots.fetchRecommendedSpots` (line 92). -/
def rsHiddenGemBonus (s : Spot) : ℚ :=
  if s.hiddenGem then 2 else 0

/-- Rating term of `RecommendedSpots.fetchRecommendedSpots` (line 95):
`(rating / 5) * 2` for truthy rating. -/
def rsRatingTerm (s : Spot) : ℚ :=
  if s.rating ≠ 0 then s.rating / 5 * 2 else 0

/-- The score accumulated by `RecommendedSpots.fetchRecommendedSpots`
(lines 54-98), transcribed as the same sequence of guarded updates. -/
def rsScore (p : RSPreferences) (s : Spot) : ℚ :=
  let score : ℚ := 0
  let score :=
    match p.interests, s.category with
    | some interests, some spotCats =>
        score + ((interests.filter fun interest =>
            spotCats.any fun cat =>
              lowerIncludes interest cat || lowerIncludes cat interest).length : ℚ) * 3
    | _, _ => score
  let score :=
    match p.districts, s.municipality with
    | some districts, some m =>
        if m ≠ "" then
          (if districts.any fun district => rsDistrictMatch district m then score + 5 else score)
        else score
    | _, _ => score
  let score := if s.hiddenGem then score + 2 else score
  let score := if s.rating ≠ 0 then score + s.rating / 5 * 2 else score
  score

/-- The pure ranking transformation of `PersonalizedFeed.fetchSpots`
(lines 119-183): score every fetched spot, keep the strictly positive
scores, sort by score descending (JavaScript's stable
`sort((a, b) => b.score - a.score)`, modelled by `mergeSort` with the
comparison `b.score ≤ a.score`), and `slice(0, 6)`. -/
def fetchSpotsRank (p : PFPreferences) (data : List Spot) : List Scored :=
  let scoredSpots := data.map fun spot => Scored.mk spot (pfScore p spot)
  ((scoredSpots.filter fun x => decide (0 < x.score)).mergeSort
      fun a b => decide (b.score ≤ a.score)).take 6

/-- The pure ranking transformation of
`RecommendedSpots.fetchRecommendedSpots` (lines 52-105): score every
fetched spot, sort by score descending and `slice(0, 8)`. -/
def fetchRecommendedSpotsRank (p : RSPreferences) (data : List Spot) : List Scored :=
  let scoredSpots := data.map fun spot => Scored.mk spot (rsScore p spot)
  (scoredSpots.mergeSort fun a b => decide (b.score ≤ a.score)).take 8

/-! ## Claim C1: the two rankers produce ranked, truncated lists -/

/-- The score of `PersonalizedFeed.fetchSpots` is the linear sum of its
five terms. -/
theorem pfScore_eq (p : PFPreferences) (s : Spot) :
    pfScore p s =
      pfCategoryWeight p s + pfSubcategoryWeight p s + pfDistrictBonus p s +
        pfHiddenGemBonus s + pfRatingTerm s := by
  obtain ⟨cats, subs, ds⟩ := p
  obtain ⟨i, mun, cat, r, g⟩ := s
  rcases cats with _ | cats <;> rcases subs with _ | subs <;> rcases ds with _ | ds <;>
    rcases mun with _ | m <;> rcases cat with _ | scats <;>
    simp only [pfScore, pfCategoryWeight, pfSubcategoryWeight, pfDistrictBonus,
      pfHiddenGemBonus, pfRatingTerm] <;>
    split_ifs <;> ring

/-- The score of `RecommendedSpots.fetchRecommendedSpots` is the linear
sum of its four terms. -/
theorem rsScore_eq (p : RSPreferences) (s : Spot) :
    rsScore p s =
      rsInterestWeight p s + rsDistrictBonus p s + rsHiddenGemBonus s + rsRatingTerm s := by
  obtain ⟨ints, ds⟩ := p
  obtain ⟨i, mun, cat, r, g⟩ := s
  rcases ints with _ | ints <;> rcases ds with _ | ds <;>
    rcases mun with _ | m <;> rcases cat with _ | scats <;>
    simp only [rsScore, rsInterestWeight, rsDistrictBonus, rsHiddenGemBonus, rsRatingTerm] <;>
    split_ifs <;> ring

/-- Sorting with the comparator `(a, b) => b.score - a.score` yields a
list that is pairwise non-increasing in score. -/
theorem mergeSort_score_pairwise (l : List Scored) :
    (l.mergeSort fun a b => decide (b.score ≤ a.score)).Pairwise
      (fun a b : Scored => b.score ≤ a.score) := by
  have h := @List.sorted_mergeSort Scored (fun a b : Scored => decide (b.score ≤ a.score))
    (fun a b c hab hbc => by
      simp only [decide_eq_true_eq] at *
      exact le_trans hbc hab)
    (fun a b => by
      simp only [Bool.or_eq_true, decide_eq_true_eq]
      exact le_total b.score a.score)
    l
  exact h.imp fun hab => by simpa using hab

/-- C1. For every fetched list of tourist spots and every preference
record: each returned spot's score is the linear sum of its
category-match weight, subcategory-match weight, district-match bonus,
hidden-gem bonus, and rating term; the returned list is sorted in
non-increasing score order; `PersonalizedFeed.fetchSpots` truncates to at
most 6 spots keeping only strictly positive scores, and
`RecommendedSpots.fetchRecommendedSpots` truncates to at most 8 spots
(its score being the linear sum of its four terms — it has no
subcategory term, i.e. that weight is 0). -/
theorem fetchSpots_ranked_truncated (p : PFPreferences) (q : RSPreferences)
    (data rsData : List Spot) :
    ((fetchSpotsRank p data).length ≤ 6 ∧
      (∀ x ∈ fetchSpotsRank p data,
        (x.score = pfCategoryWeight p x.spot + pfSubcategoryWeight p x.spot +
            pfDistrictBonus p x.spot + pfHiddenGemBonus x.spot + pfRatingTerm x.spot) ∧
          0 < x.score) ∧
      (fetchSpotsRank p data).Pairwise (fun a b => b.score ≤ a.score)) ∧
    ((fetchRecommendedSpotsRank q rsData).length ≤ 8 ∧
      (∀ x ∈ fetchRecommendedSpotsRank q rsData,
        x.score = rsInterestWeight q x.spot + rsDistrictBonus q x.spot +
          rsHiddenGemBonus x.spot + rsRatingTerm x.spot) ∧
      (fetchRecommendedSpotsRank q rsData).Pairwise (fun a b => b.score ≤ a.score)) := by
  refine ⟨⟨List.length_take_le _ _, ?_, ?_⟩, ⟨List.length_take_le _ _, ?_, ?_⟩⟩
  · intro x hx
    have hx' : x ∈ (((data.map fun spot => Scored.mk spot (pfScore p spot)).filter
        fun x => decide (0 < x.score)).mergeSort fun a b => decide (b.score ≤ a.score)) :=
      (List.take_sublist _ _).subset hx
    have hx'' := (List.mergeSort_perm _ _).subset hx'
    have hpos := (List.mem_filter.mp hx'').2
    have hmem := (List.mem_filter.mp hx'').1
    obtain ⟨s, _, rfl⟩ := List.mem_map.mp hmem
    simp only [decide_eq_true_eq] at hpos
    exact ⟨pfScore_eq p s, hpos⟩
  · exact List.Pairwise.sublist (List.take_sublist _ _) (mergeSort_score_pairwise _)
  · intro x hx
    have hx' : x ∈ ((rsData.map fun spot => Scored.mk spot (rsScore q spot)).mergeSort
        fun a b => decide (b.score ≤ a.score)) :=
      (List.take_sublist _ _).subset hx
    have hx'' := (List.mergeSort_perm _ _).subset hx'
    obtain ⟨s, _, rfl⟩ := List.mem_map.mp hx''
    exact rsScore_eq q s
  · exact List.Pairwise.sublist (List.take_sublist _ _) (mergeSort_score_pairwise _)

/-! ## Claim C3: the three district matchers -/

/-- C3 counterexample. The district matcher of `PersonalizedFeed` disagrees
with the one of `RecommendedSpots` (and with
`getDistrictMunicipalities`): `PersonalizedFeed` places Legazpi in
District 3 while the other two place it in District 2, so for
district `"District 2"` and municipality `"Legazpi"` the tests differ. -/
theorem districtMatch_counterexample :
    pfDistrictMatch "District 2" "Legazpi" = false ∧
      rsDistrictMatch "District 2" "Legazpi" = true ∧
      nrDistrictMatch ["District 2"] "Legazpi" = true := by
  decide

/-- C3 amended. The matcher of `RecommendedSpots` agrees with
`NearbyRestaurants`' `getDistrictMunicipalities`-based test on every
district and municipality string, and `PersonalizedFeed`'s matcher agrees
with them on `"District 1"` only (its District 2/3 tables differ). -/
theorem districtMatch_agreement :
    (∀ m, pfDistrictMatch "District 1" m = rsDistrictMatch "District 1" m) ∧
      (∀ d m, rsDistrictMatch d m = nrDistrictMatch [d] m) := by
  constructor
  · intro m
    simp [pfDistrictMatch, rsDistrictMatch]
  · intro d m
    by_cases h1 : d = "District 1"
    · subst h1
      simp [rsDistrictMatch, nrDistrictMatch, getDistrictMunicipalities]
    · by_cases h2 : d = "District 2"
      · subst h2
        simp [rsDistrictMatch, nrDistrictMatch, getDistrictMunicipalities]
      · by_cases h3 : d = "District 3"
        · subst h3
          simp [rsDistrictMatch, nrDistrictMatch, getDistrictMunicipalities]
        · simp [rsDistrictMatch, nrDistrictMatch, getDistrictMunicipalities, h1, h2, h3]

/-! ## The itinerary scheduler (`src/pages/Itinerary.tsx`) -/

/-- The fields of a recommended spot that `generateSchedule` and
`toggleSpot` inspect (the spot data is otherwise carried through
opaquely). -/
structure ItinSpot where
  id : String
  name : String
deriving Repr, DecidableEq

/-- Transcribes `ScheduledActivity` of `Itinerary.tsx` (lines 23-28). -/
structure ScheduledActivity where
  spot : ItinSpot
  day : ℕ
  startTime : String
  endTime : String
deriving Repr, DecidableEq

/-- The static `timeSlots` table declared in `generateSchedule`
(lines 136-141). -/
def timeSlots : List (String × String) :=
  [("09:00 AM", "11:30 AM"), ("02:00 PM", "04:30 PM"),
   ("09:30 AM", "12:00 PM"), ("01:30 PM", "04:00 PM")]

/-- The `selectedSpotsData.forEach((spot, index) => …)` loop of
`generateSchedule` (lines 143-162), with the mutable `currentDay` /
`slotIndex` cells threaded as arguments: at `index > 0 ∧ index % 2 = 0`
the day advances and the slot index resets, then the spot is pushed with
`timeSlots[slotIndex]` and `slotIndex` increments. -/
def scheduleGo : List ItinSpot → ℕ → ℕ → ℕ → List ScheduledActivity
  | [], _, _, _ => []
  | spot :: rest, index, currentDay, slotIndex =>
    let d := if 0 < index ∧ index % 2 = 0 then currentDay + 1 else currentDay
    let s := if 0 < index ∧ index % 2 = 0 then 0 else slotIndex
    { spot := spot, day := d,
      startTime := (timeSlots.getD s ("", "")).1,
      endTime := (timeSlots.getD s ("", "")).2 } ::
      scheduleGo rest (index + 1) d (s + 1)

/-- Transcribes `generateSchedule` (lines 125-166): refuses fewer than 3 selected
spots, filters the recommended spots down to the selected ids, and runs
the slot-assignment loop from day 1, slot 0. -/
def generateSchedule (recommendedSpots : List ItinSpot)
    (selectedSpots : List String) : List ScheduledActivity :=
  if selectedSpots.length < 3 then []
  else scheduleGo (recommendedSpots.filter fun spot => selectedSpots.contains spot.id) 0 1 0

/-- Transcribes `toggleSpot` (lines 108-123): remove the id when present, otherwise
append it; if the new selection exceeds 5 entries the previous selection
is kept. -/
def toggleSpot (prev : List String) (spotId : String) : List String :=
  let isSelected := prev.contains spotId
  let newSelection :=
    if isSelected then prev.filter fun x => x ≠ spotId else prev ++ [spotId]
  if 5 < newSelection.length then prev else newSelection

/-- The reachable states of the scheduling loop: the initial state, the
state after an odd number of spots (`index = 2·day - 1`, slot 1), and
the state after a positive even number of spots (`index = 2·day`,
slot 2). -/
def stateOk (index currentDay slotIndex : ℕ) : Prop :=
  (index = 0 ∧ currentDay = 1 ∧ slotIndex = 0) ∨
    (index = 2 * currentDay - 1 ∧ 1 ≤ currentDay ∧ slotIndex = 1) ∨
    (index = 2 * currentDay ∧ 1 ≤ currentDay ∧ slotIndex = 2)

theorem scheduleGo_length (l : List ItinSpot) :
    ∀ i d s, (scheduleGo l i d s).length = l.length := by
  induction l with
  | nil => intro i d s; rfl
  | cons a t ih => intro i d s; simp [scheduleGo, ih]

/-- Closed form of the scheduling loop from any reachable state: the
`j`-th produced activity wraps the `j`-th remaining spot, is placed on
day `(index + j) / 2 + 1`, and uses time slot `(index + j) % 2`. -/
theorem scheduleGo_getElem (l : List ItinSpot) :
    ∀ i d s j, stateOk i d s →
      (scheduleGo l i d s)[j]? = l[j]?.map fun sp =>
        ScheduledActivity.mk sp ((i + j) / 2 + 1)
          (timeSlots.getD ((i + j) % 2) ("", "")).1
          (timeSlots.getD ((i + j) % 2) ("", "")).2 := by
  induction l with
  | nil => intro i d s j _; simp [scheduleGo]
  | cons a t ih =>
    intro i d s j h
    cases j with
    | zero =>
      rcases h with ⟨rfl, rfl, rfl⟩ | ⟨rfl, hd, rfl⟩ | ⟨rfl, hd, rfl⟩
      · simp only [scheduleGo, List.getElem?_cons_zero, Option.map_some']
        norm_num
      · have hd2 : (if 0 < 2 * d - 1 ∧ (2 * d - 1) % 2 = 0 then d + 1 else d)
            = (2 * d - 1 + 0) / 2 + 1 := by split_ifs <;> omega
        have hs2 : (if 0 < 2 * d - 1 ∧ (2 * d - 1) % 2 = 0 then 0 else 1)
            = (2 * d - 1 + 0) % 2 := by split_ifs <;> omega
        simp only [scheduleGo, List.getElem?_cons_zero, Option.map_some', hd2, hs2]
      · have hd2 : (if 0 < 2 * d ∧ 2 * d % 2 = 0 then d + 1 else d)
            = (2 * d + 0) / 2 + 1 := by split_ifs <;> omega
        have hs2 : (if 0 < 2 * d ∧ 2 * d % 2 = 0 then 0 else 2)
            = (2 * d + 0) % 2 := by split_ifs <;> omega
        simp only [scheduleGo, List.getElem?_cons_zero, Option.map_some', hd2, hs2]
    | succ j' =>
      rcases h with ⟨rfl, rfl, rfl⟩ | ⟨rfl, hd, rfl⟩ | ⟨rfl, hd, rfl⟩
      · have hok : stateOk (0 + 1) 1 (0 + 1) :=
          Or.inr (Or.inl ⟨by omega, by omega, by omega⟩)
        have e : 0 + 1 + j' = 0 + (j' + 1) := by omega
        simp only [scheduleGo, Nat.lt_irrefl, false_and, if_false,
          List.getElem?_cons_succ]
        rw [ih (0 + 1) 1 (0 + 1) j' hok]
        simp only [e]
      · have hc : ¬(0 < 2 * d - 1 ∧ (2 * d - 1) % 2 = 0) := by omega
        have hok : stateOk (2 * d - 1 + 1) d (1 + 1) :=
          Or.inr (Or.inr ⟨by omega, by omega, by omega⟩)
        have e : 2 * d - 1 + 1 + j' = 2 * d - 1 + (j' + 1) := by omega
        simp only [scheduleGo, if_neg hc, List.getElem?_cons_succ]
        rw [ih (2 * d - 1 + 1) d (1 + 1) j' hok]
        simp only [e]
      · have hc : 0 < 2 * d ∧ 2 * d % 2 = 0 := by omega
        have hok : stateOk (2 * d + 1) (d + 1) (0 + 1) :=
          Or.inr (Or.inl ⟨by omega, by omega, by omega⟩)
        have e : 2 * d + 1 + j' = 2 * d + (j' + 1) := by omega
        simp only [scheduleGo, if_pos hc, List.getElem?_cons_succ]
        rw [ih (2 * d + 1) (d + 1) (0 + 1) j' hok]
        simp only [e]

/-- Transcribes `selectedSpotsData` of `generateSchedule` (lines 131-133): the
recommended spots whose ids are selected. -/
def selectedSpotsData (recommendedSpots : List ItinSpot)
    (selectedSpots : List String) : List ItinSpot :=
  recommendedSpots.filter fun spot => selectedSpots.contains spot.id

/-- A list without duplicates whose members all equal `a` or `b` has at
most two elements. -/
theorem nodup_mem_pair_length_le (l : List ℕ) (a b : ℕ) (hnd : l.Nodup)
    (hmem : ∀ x ∈ l, x = a ∨ x = b) : l.length ≤ 2 := by
  have h1 : l.toFinset ⊆ {a, b} := by
    intro x hx
    simp only [Finset.mem_insert, Finset.mem_singleton]
    exact hmem x (List.mem_toFinset.mp hx)
  have h2 := Finset.card_le_card h1
  rw [List.toFinset_card_of_nodup hnd] at h2
  exact h2.trans ((Finset.card_insert_le a {b}).trans (by simp))

/-- Closed form of `generateSchedule` past its length guard. -/
theorem generateSchedule_getElem (recommendedSpots : List ItinSpot)
    (selectedSpots : List String) (h : ¬selectedSpots.length < 3) (j : ℕ) :
    (generateSchedule recommendedSpots selectedSpots)[j]? =
      (selectedSpotsData recommendedSpots selectedSpots)[j]?.map fun sp =>
        ScheduledActivity.mk sp (j / 2 + 1)
          (timeSlots.getD (j % 2) ("", "")).1
          (timeSlots.getD (j % 2) ("", "")).2 := by
  unfold generateSchedule selectedSpotsData
  rw [if_neg h]
  have hgo := scheduleGo_getElem
    (recommendedSpots.filter fun spot => selectedSpots.contains spot.id) 0 1 0 j
    (Or.inl ⟨rfl, rfl, rfl⟩)
  simpa using hgo

/-- C9. When at least 3 spots are selected, `generateSchedule` puts the
`j`-th (0-indexed) selected spot on day `j / 2 + 1`, starting at
`09:00 AM` for even `j` and `02:00 PM` for odd `j`; every day carries at
most 2 activities, every day number is at most `⌈n/2⌉ = (n + 1) / 2`
(with `n` the number of scheduled spots), and day `(n + 1) / 2` is
reached as soon as a spot is scheduled. -/
theorem generateSchedule_day_assignment (recommendedSpots : List ItinSpot)
    (selectedSpots : List String) (h : 3 ≤ selectedSpots.length) :
    ((generateSchedule recommendedSpots selectedSpots).length
        = (selectedSpotsData recommendedSpots selectedSpots).length) ∧
      (∀ (j : ℕ) (hj : j < (generateSchedule recommendedSpots selectedSpots).length),
        ((generateSchedule recommendedSpots selectedSpots).get ⟨j, hj⟩).day = j / 2 + 1 ∧
          ((generateSchedule recommendedSpots selectedSpots).get ⟨j, hj⟩).startTime
            = (if j % 2 = 0 then "09:00 AM" else "02:00 PM")) ∧
      (∀ d : ℕ, ((generateSchedule recommendedSpots selectedSpots).filter
          fun a => decide (a.day = d)).length ≤ 2) ∧
      (∀ a ∈ generateSchedule recommendedSpots selectedSpots,
        a.day ≤ ((selectedSpotsData recommendedSpots selectedSpots).length + 1) / 2) ∧
      (1 ≤ (selectedSpotsData recommendedSpots selectedSpots).length →
        ∃ a ∈ generateSchedule recommendedSpots selectedSpots,
          a.day = ((selectedSpotsData recommendedSpots selectedSpots).length + 1) / 2) := by
  have hnot : ¬selectedSpots.length < 3 := by omega
  have hElem := generateSchedule_getElem recommendedSpots selectedSpots hnot
  have hgen : generateSchedule recommendedSpots selectedSpots
      = scheduleGo (selectedSpotsData recommendedSpots selectedSpots) 0 1 0 := by
    unfold generateSchedule selectedSpotsData
    rw [if_neg hnot]
  have hlen : (generateSchedule recommendedSpots selectedSpots).length
      = (selectedSpotsData recommendedSpots selectedSpots).length := by
    rw [hgen, scheduleGo_length]
  refine ⟨hlen, ?_, ?_, ?_, ?_⟩
  · intro j hj
    have hj' : j < (selectedSpotsData recommendedSpots selectedSpots).length := hlen ▸ hj
    have h1 := hElem j
    rw [List.getElem?_eq_getElem hj, List.getElem?_eq_getElem hj'] at h1
    simp only [Option.map_some'] at h1
    have h2 := Option.some.inj h1
    rcases Nat.even_or_odd j with he | ho
    · have hm : j % 2 = 0 := Nat.even_iff.mp he
      constructor
      · simp [List.get_eq_getElem, h2]
      · simp [List.get_eq_getElem, h2, hm, timeSlots]
    · have hm : j % 2 = 1 := Nat.odd_iff.mp ho
      constructor
      · simp [List.get_eq_getElem, h2]
      · simp [List.get_eq_getElem, h2, hm, timeSlots]
  · intro d
    have hdays : (generateSchedule recommendedSpots selectedSpots).map ScheduledActivity.day
        = (List.range (selectedSpotsData recommendedSpots selectedSpots).length).map
            fun j => j / 2 + 1 := by
      apply List.ext_getElem?
      intro n
      by_cases hn : n < (selectedSpotsData recommendedSpots selectedSpots).length
      · rw [List.getElem?_map, List.getElem?_map, hElem n, List.getElem?_range hn,
          List.getElem?_eq_getElem hn]
        simp
      · have hn1 : (generateSchedule recommendedSpots selectedSpots).length ≤ n := by omega
        have hn2 : (List.range (selectedSpotsData recommendedSpots selectedSpots).length).length
            ≤ n := by
          rw [List.length_range]; omega
        rw [List.getElem?_map, List.getElem?_map, List.getElem?_eq_none hn1,
          List.getElem?_eq_none hn2]
        rfl
    have hcnt : ((generateSchedule recommendedSpots selectedSpots).filter
        fun a => decide (a.day = d)).length
        = ((List.range (selectedSpotsData recommendedSpots selectedSpots).length).filter
            fun j => decide (j / 2 + 1 = d)).length := by
      rw [← List.countP_eq_length_filter, ← List.countP_eq_length_filter]
      have c1 := List.countP_map (fun n => decide (n = d)) ScheduledActivity.day
        (generateSchedule recommendedSpots selectedSpots)
      have c2 := List.countP_map (fun n => decide (n = d)) (fun j => j / 2 + 1)
        (List.range (selectedSpotsData recommendedSpots selectedSpots).length)
      rw [hdays, c2] at c1
      simpa [Function.comp] using c1.symm
    rw [hcnt]
    apply nodup_mem_pair_length_le _ (2 * (d - 1)) (2 * (d - 1) + 1)
      (List.Nodup.filter _ (List.nodup_range _))
    intro x hx
    have hx' := List.mem_filter.mp hx
    have : x / 2 + 1 = d := by simpa using hx'.2
    omega
  · intro a ha
    obtain ⟨n, hn⟩ := List.mem_iff_getElem?.mp ha
    have hn' : n < (generateSchedule recommendedSpots selectedSpots).length := by
      by_contra hc
      rw [List.getElem?_eq_none (by omega)] at hn
      cases hn
    have hn'' : n < (selectedSpotsData recommendedSpots selectedSpots).length := hlen ▸ hn'
    have h1 := hElem n
    rw [hn, List.getElem?_eq_getElem hn''] at h1
    simp only [Option.map_some'] at h1
    have h2 := Option.some.inj h1
    have : a.day = n / 2 + 1 := by rw [h2]
    omega
  · intro hpos
    set n := (selectedSpotsData recommendedSpots selectedSpots).length with hn
    have hlt : n - 1 < n := by omega
    have h1 := hElem (n - 1)
    rw [List.getElem?_eq_getElem hlt] at h1
    simp only [Option.map_some'] at h1
    refine ⟨ScheduledActivity.mk
      ((selectedSpotsData recommendedSpots selectedSpots).get ⟨n - 1, hlt⟩)
      ((n - 1) / 2 + 1)
      (timeSlots.getD ((n - 1) % 2) ("", "")).1
      (timeSlots.getD ((n - 1) % 2) ("", "")).2, ?_, ?_⟩
    · apply List.getElem?_mem
      rw [h1]
      simp [List.get_eq_getElem]
    · simp only []
      omega

/-- A concrete list of four recommended spots used to evaluate the
scheduler. -/
def demoSpots : List ItinSpot :=
  [ItinSpot.mk "s1" "Mayon Volcano", ItinSpot.mk "s2" "Cagsawa Ruins",
   ItinSpot.mk "s3" "Lignon Hill", ItinSpot.mk "s4" "Sumlang Lake"]

/-- The ids of all four demo spots, selected in order. -/
def demoSelected : List String := ["s1", "s2", "s3", "s4"]

/-- C2 counterexample. With four spots scheduled, the spot at index 2
starts at `09:00 AM` (slot `2 % 2 = 0`), not at the `(2 % 4)`-th slot of
the table (`09:30 AM`); indeed no activity ever uses the third slot, so
the loop is not a round-robin over all four declared slots. -/
theorem generateSchedule_mod4_counterexample :
    ((generateSchedule demoSpots demoSelected)[2]?.map ScheduledActivity.startTime
        = some "09:00 AM") ∧
      ((timeSlots.getD (2 % 4) ("", "")).1 = "09:30 AM") ∧
      ¬((generateSchedule demoSpots demoSelected)[2]?.map ScheduledActivity.startTime
        = some ((timeSlots.getD (2 % 4) ("", "")).1)) ∧
      (∀ a ∈ generateSchedule demoSpots demoSelected, ¬(a.startTime = "09:30 AM")) := by
  decide

/-- C2 amended. The scheduler is a fixed round-robin over only the first
two of the four statically declared time slots: the `j`-th scheduled spot
is assigned the `(j mod 2)`-th slot of the table, and the third and
fourth declared slots (`09:30 AM`, `01:30 PM`) are never used, however
many spots are scheduled. -/
theorem generateSchedule_round_robin (recommendedSpots : List ItinSpot)
    (selectedSpots : List String) (h : 3 ≤ selectedSpots.length) :
    (∀ (j : ℕ) (hj : j < (generateSchedule recommendedSpots selectedSpots).length),
        ((generateSchedule recommendedSpots selectedSpots).get ⟨j, hj⟩).startTime
            = (timeSlots.getD (j % 2) ("", "")).1 ∧
          ((generateSchedule recommendedSpots selectedSpots).get ⟨j, hj⟩).endTime
            = (timeSlots.getD (j % 2) ("", "")).2) ∧
      (∀ a ∈ generateSchedule recommendedSpots selectedSpots,
        ¬(a.startTime = (timeSlots.getD 2 ("", "")).1) ∧
          ¬(a.startTime = (timeSlots.getD 3 ("", "")).1)) := by
  have hnot : ¬selectedSpots.length < 3 := by omega
  have hElem := generateSchedule_getElem recommendedSpots selectedSpots hnot
  have hgen : generateSchedule recommendedSpots selectedSpots
      = scheduleGo (selectedSpotsData recommendedSpots selectedSpots) 0 1 0 := by
    unfold generateSchedule selectedSpotsData
    rw [if_neg hnot]
  have hlen : (generateSchedule recommendedSpots selectedSpots).length
      = (selectedSpotsData recommendedSpots selectedSpots).length := by
    rw [hgen, scheduleGo_length]
  constructor
  · intro j hj
    have hj' : j < (selectedSpotsData recommendedSpots selectedSpots).length := hlen ▸ hj
    have h1 := hElem j
    rw [List.getElem?_eq_getElem hj, List.getElem?_eq_getElem hj'] at h1
    simp only [Option.map_some'] at h1
    have h2 := Option.some.inj h1
    exact ⟨by simp [List.get_eq_getElem, h2], by simp [List.get_eq_getElem, h2]⟩
  · intro a ha
    obtain ⟨n, hn⟩ := List.mem_iff_getElem?.mp ha
    have hn' : n < (generateSchedule recommendedSpots selectedSpots).length := by
      by_contra hc
      rw [List.getElem?_eq_none (by omega)] at hn
      cases hn
    have hn'' : n < (selectedSpotsData recommendedSpots selectedSpots).length := hlen ▸ hn'
    have h1 := hElem n
    rw [hn, List.getElem?_eq_getElem hn''] at h1
    simp only [Option.map_some'] at h1
    have h2 := Option.some.inj h1
    have hstart : a.startTime = (timeSlots.getD (n % 2) ("", "")).1 := by rw [h2]
    rcases Nat.mod_two_eq_zero_or_one n with hm | hm <;>
      rw [hm] at hstart <;> rw [hstart] <;> exact ⟨by decide, by decide⟩

/-- C2 amended, witnessed on the four demo spots. -/
theorem generateSchedule_round_robin_witness :
    3 ≤ demoSelected.length ∧
      ((∀ (j : ℕ) (hj : j < (generateSchedule demoSpots demoSelected).length),
          ((generateSchedule demoSpots demoSelected).get ⟨j, hj⟩).startTime
              = (timeSlots.getD (j % 2) ("", "")).1 ∧
            ((generateSchedule demoSpots demoSelected).get ⟨j, hj⟩).endTime
              = (timeSlots.getD (j % 2) ("", "")).2) ∧
        (∀ a ∈ generateSchedule demoSpots demoSelected,
          ¬(a.startTime = (timeSlots.getD 2 ("", "")).1) ∧
            ¬(a.startTime = (timeSlots.getD 3 ("", "")).1))) :=
  ⟨by decide, generateSchedule_round_robin demoSpots demoSelected (by decide)⟩

/-- C9, witnessed on the four demo spots. -/
theorem generateSchedule_day_assignment_witness :
    3 ≤ demoSelected.length ∧
      (((generateSchedule demoSpots demoSelected).length
          = (selectedSpotsData demoSpots demoSelected).length) ∧
        (∀ (j : ℕ) (hj : j < (generateSchedule demoSpots demoSelected).length),
          ((generateSchedule demoSpots demoSelected).get ⟨j, hj⟩).day = j / 2 + 1 ∧
            ((generateSchedule demoSpots demoSelected).get ⟨j, hj⟩).startTime
              = (if j % 2 = 0 then "09:00 AM" else "02:00 PM")) ∧
        (∀ d : ℕ, ((generateSchedule demoSpots demoSelected).filter
            fun a => decide (a.day = d)).length ≤ 2) ∧
        (∀ a ∈ generateSchedule demoSpots demoSelected,
          a.day ≤ ((selectedSpotsData demoSpots demoSelected).length + 1) / 2) ∧
        (1 ≤ (selectedSpotsData demoSpots demoSelected).length →
          ∃ a ∈ generateSchedule demoSpots demoSelected,
            a.day = ((selectedSpotsData demoSpots demoSelected).length + 1) / 2)) :=
  ⟨by decide, generateSchedule_day_assignment demoSpots demoSelected (by decide)⟩

/-! ## Claim C10: the 5-spot selection cap and the 3-spot floor -/

/-- C10. `toggleSpot` never grows a selection of at most 5 ids beyond 5:
toggling keeps the length bound, and attempting to add a 6th id to a full
selection of 5 returns the selection unchanged; and `generateSchedule`
produces no schedule when fewer than 3 spots are selected. -/
theorem toggleSpot_limit (prev : List String) (spotId : String)
    (h : prev.length ≤ 5) :
    (toggleSpot prev spotId).length ≤ 5 ∧
      (prev.length = 5 → prev.contains spotId = false → toggleSpot prev spotId = prev) ∧
      (∀ (recommendedSpots : List ItinSpot) (selectedSpots : List String),
        selectedSpots.length < 3 → generateSchedule recommendedSpots selectedSpots = []) := by
  refine ⟨?_, ?_, ?_⟩
  · simp only [toggleSpot]
    split_ifs with h1 h2 h2 <;>
      first
        | exact h
        | (simp only [List.length_append, List.length_cons, List.length_nil] at *; omega)
  · intro h5 hcon
    simp only [toggleSpot, hcon]
    have h6 : 5 < (prev ++ [spotId]).length := by
      simp [h5]
    simp [h6]
    omega
  · intro recommendedSpots selectedSpots hlt
    unfold generateSchedule
    rw [if_pos hlt]

/-- C10, witnessed on a full selection of five ids and a sixth id. -/
theorem toggleSpot_limit_witness :
    (["a", "b", "c", "d", "e"] : List String).length ≤ 5 ∧
      ((toggleSpot ["a", "b", "c", "d", "e"] "f").length ≤ 5 ∧
        ((["a", "b", "c", "d", "e"] : List String).length = 5 →
          (["a", "b", "c", "d", "e"] : List String).contains "f" = false →
          toggleSpot ["a", "b", "c", "d", "e"] "f" = ["a", "b", "c", "d", "e"]) ∧
        (∀ (recommendedSpots : List ItinSpot) (selectedSpots : List String),
          selectedSpots.length < 3 → generateSchedule recommendedSpots selectedSpots = [])) :=
  ⟨by decide, toggleSpot_limit ["a", "b", "c", "d", "e"] "f" (by decide)⟩

/-! ## The `send-otp` edge function (`supabase/functions/send-otp/index.ts`)

The handler is modelled as a pure function of the parsed request and of
an environment recording the nondeterministic outcomes it consumes: the
existing-user check, database and email failures, and `Math.random()`.
Besides the HTTP response, the model returns a ghost trace of the steps
the handler executed, the OTP it generated, the code it stored in
`temp_otps`, and the code it embedded in the email. -/

/-- The request body `{contact, contactType}` (`SendOTPRequest`). -/
structure SendOTPRequest where
  contact : String
  contactType : String
deriving Repr, DecidableEq

/-- An incoming HTTP request: its method, and its JSON body when
`req.json()` parses (`none` models a parse failure, which the
`try`/`catch` turns into an error response). -/
structure OtpRequest where
  method : String
  body : Option SendOTPRequest
deriving Repr, DecidableEq

/-- The environment consumed by one handler run: whether
`auth.admin.listUsers` finds the contact, whether the `temp_otps` insert
fails, whether `resend.emails.send` fails, and the value of
`Math.random()` (a real in `[0, 1)`, modelled as `ℚ`). -/
structure OtpEnv where
  userExists : Bool
  dbError : Bool
  emailError : Bool
  rand : ℚ
deriving Repr, DecidableEq

/-- The externally visible steps of the handler, in source order. -/
inductive OtpStep where
  | validate
  | checkUser
  | generate
  | deleteOld
  | store
  | email
deriving Repr, DecidableEq

/-- The JSON bodies the handler builds: `null` (the CORS preflight),
`{success: true, message, expiresIn?}`, or `{error}`. -/
inductive OtpBody where
  | empty
  | success (message : String) (expiresIn : Option ℕ)
  | err (message : String)
deriving Repr, DecidableEq

/-- A `Response`: HTTP status and JSON body. -/
structure OtpResponse where
  status : ℕ
  body : OtpBody
deriving Repr, DecidableEq

/-- One handler run: response, ghost step trace, generated OTP, the code
stored in `temp_otps` (when the insert succeeded) and the code embedded
in the sent email (when the send succeeded). -/
structure OtpResult where
  response : OtpResponse
  trace : List OtpStep
  generated : Option ℕ
  stored : Option ℕ
  emailed : Option ℕ
deriving Repr, DecidableEq

/-- A character admitted by the `[^\s@]` classes of the email regex. -/
def validChar (c : Char) : Bool :=
  !(c.isWhitespace || c == '@')

/-- The email regex `^[^\s@]+@[^\s@]+\.[^\s@]+$` (line 35): the string
splits as `A@T` at its first `@` with `A` nonempty and `@`-and-space
free, `T` nonempty and `@`-and-space free, and `T` containing a `.` that
is neither its first nor its last character (so `T = B.C` with `B`, `C`
nonempty). -/
def emailFormat (cs : List Char) : Bool :=
  let before := cs.takeWhile fun c => !(c == '@')
  let rest := cs.dropWhile fun c => !(c == '@')
  match rest with
  | [] => false
  | _ :: tail =>
    !before.isEmpty && before.all validChar &&
      !tail.isEmpty && tail.all validChar &&
      ((tail.drop 1).dropLast.contains '.')

/-- The phone regex `^\+63[0-9]{10}$` (line 40). -/
def phoneFormat (cs : List Char) : Bool :=
  match cs with
  | '+' :: '6' :: '3' :: digits => digits.length == 10 && digits.all Char.isDigit
  | _ => false

/-- Transcribes `Math.floor(100000 + Math.random() * 900000)` (line 71). -/
def genOtp (r : ℚ) : ℕ :=
  (Int.floor ((100000 : ℚ) + r * 900000)).toNat

/-- The order in which the handler's steps appear in the source. -/
def otpStepOrder : List OtpStep :=
  [OtpStep.validate, OtpStep.checkUser, OtpStep.generate,
   OtpStep.deleteOld, OtpStep.store, OtpStep.email]

/-- The `handler` of `send-otp/index.ts` (lines 17-175): CORS preflight;
parse; validate contact and contact type; reject existing users;
generate the OTP; delete stale OTPs; store the OTP (failure throws);
email it for `contactType === 'email'` (failure throws); reply 400 for
`contactType === 'phone'` (SMS unsupported); otherwise reply success.
Every thrown error is caught and becomes a 500 `{error}` response. -/
def handler (req : OtpRequest) (env : OtpEnv) : OtpResult :=
  if req.method = "OPTIONS" then
    OtpResult.mk (OtpResponse.mk 200 OtpBody.empty) [] none none none
  else
    match req.body with
    | none =>
        OtpResult.mk (OtpResponse.mk 500 (OtpBody.err "Invalid JSON body")) [] none none none
    | some b =>
        let trace0 := [OtpStep.validate]
        if b.contact = "" ∨ b.contactType = "" then
          OtpResult.mk (OtpResponse.mk 500 (OtpBody.err "Contact and contactType are required"))
            trace0 none none none
        else if b.contactType = "email" ∧ emailFormat b.contact.data = false then
          OtpResult.mk (OtpResponse.mk 500 (OtpBody.err "Invalid email format"))
            trace0 none none none
        else if b.contactType = "phone" ∧ phoneFormat b.contact.data = false then
          OtpResult.mk
            (OtpResponse.mk 500 (OtpBody.err "Invalid phone format. Use +63XXXXXXXXXX"))
            trace0 none none none
        else
          let trace1 := trace0 ++ [OtpStep.checkUser]
          if env.userExists then
            OtpResult.mk
              (OtpResponse.mk 400 (OtpBody.err
                "An account with this email or phone already exists. Please login instead."))
              trace1 none none none
          else
            let otp := genOtp env.rand
            let trace2 := trace1 ++ [OtpStep.generate, OtpStep.deleteOld, OtpStep.store]
            if env.dbError then
              OtpResult.mk (OtpResponse.mk 500 (OtpBody.err "Failed to store OTP"))
                trace2 (some otp) none none
            else if b.contactType = "email" then
              let trace3 := trace2 ++ [OtpStep.email]
              if env.emailError then
                OtpResult.mk (OtpResponse.mk 500 (OtpBody.err "Failed to send email"))
                  trace3 (some otp) (some otp) none
              else
                OtpResult.mk
                  (OtpResponse.mk 200 (OtpBody.success "OTP sent successfully" (some 300)))
                  trace3 (some otp) (some otp) (some otp)
            else if b.contactType = "phone" then
              OtpResult.mk
                (OtpResponse.mk 400 (OtpBody.err
                  "SMS verification is currently not available. Please use email instead."))
                trace2 (some otp) (some otp) none
            else
              OtpResult.mk
                (OtpResponse.mk 200 (OtpBody.success "OTP sent successfully" (some 300)))
                trace2 (some otp) (some otp) none

/-- The body is the `{success: …}` object. -/
def bodyIsSuccess : OtpBody → Bool
  | OtpBody.success _ _ => true
  | _ => false

/-- The body is the `{error: …}` object. -/
def bodyIsError : OtpBody → Bool
  | OtpBody.err _ => true
  | _ => false

/-- A well-formed email signup request. -/
def demoEmailReq : OtpRequest :=
  OtpRequest.mk "POST" (some (SendOTPRequest.mk "user@example.com" "email"))

/-- An environment with no existing user and no failures, with
`Math.random() = 0`. -/
def demoEnv : OtpEnv := OtpEnv.mk false false false 0

/-- Every trace the handler can produce is an in-order selection of
`otpStepOrder`. -/
theorem handlerTraces_sublist :
    ([] : List OtpStep).Sublist otpStepOrder ∧
      [OtpStep.validate].Sublist otpStepOrder ∧
      ([OtpStep.validate] ++ [OtpStep.checkUser]).Sublist otpStepOrder ∧
      ([OtpStep.validate] ++ [OtpStep.checkUser]
          ++ [OtpStep.generate, OtpStep.deleteOld, OtpStep.store]).Sublist otpStepOrder ∧
      ([OtpStep.validate] ++ [OtpStep.checkUser]
          ++ [OtpStep.generate, OtpStep.deleteOld, OtpStep.store]
          ++ [OtpStep.email]).Sublist otpStepOrder := by
  decide

/-- C4 counterexample. On a valid email request that succeeds, the
handler stores the OTP *before* emailing it (trace
`validate, checkUser, generate, deleteOld, store, email`), so the
claimed validate-generate-email-store order is wrong: `store` precedes
`email`. -/
theorem sendOtp_store_before_email :
    (handler demoEmailReq demoEnv).trace = otpStepOrder ∧
      List.indexOf OtpStep.store (handler demoEmailReq demoEnv).trace <
        List.indexOf OtpStep.email (handler demoEmailReq demoEnv).trace := by
  decide

/-- C4 amended. Every run of the handler performs its steps in the fixed
source order validate, check-user, generate, delete-old, **store**,
**email** — the trace is a sublist of that order, so no step is ever
repeated (no retry) — and a successful (status 200) non-preflight email
request performs all six steps exactly once. -/
theorem handler_step_order (req : OtpRequest) (env : OtpEnv) :
    (handler req env).trace.Sublist otpStepOrder ∧
      (¬req.method = "OPTIONS" →
        (handler req env).response.status = 200 →
        ∀ b, req.body = some b → b.contactType = "email" →
          (handler req env).trace = otpStepOrder) := by
  obtain ⟨m, body⟩ := req
  by_cases hm : m = "OPTIONS"
  · subst hm
    refine ⟨by simp [handler], ?_⟩
    intro hne
    exact absurd rfl hne
  · rcases body with _ | b
    · refine ⟨by simp [handler, hm], ?_⟩
      intro hne h200 b hb
      cases hb
    · simp only [handler, if_neg hm]
      split_ifs <;>
        refine ⟨?_, ?_⟩ <;>
        first
          | exact handlerTraces_sublist.1
          | exact handlerTraces_sublist.2.1
          | exact handlerTraces_sublist.2.2.1
          | exact handlerTraces_sublist.2.2.2.1
          | exact handlerTraces_sublist.2.2.2.2
          | (intro hne h200 b' hb' hct'
             first
               | rfl
               | (exfalso; simp_all))

/-- C4 amended, witnessed on the valid email request. -/
theorem handler_step_order_witness :
    (handler demoEmailReq demoEnv).trace.Sublist otpStepOrder ∧
      (¬demoEmailReq.method = "OPTIONS" →
        (handler demoEmailReq demoEnv).response.status = 200 →
        ∀ b, demoEmailReq.body = some b → b.contactType = "email" →
          (handler demoEmailReq demoEnv).trace = otpStepOrder) :=
  handler_step_order demoEmailReq demoEnv

/-- The CORS preflight request. -/
def demoPreflightReq : OtpRequest := OtpRequest.mk "OPTIONS" none

/-- C5 counterexample. The CORS preflight (`OPTIONS`) request receives
`new Response(null, …)`: status 200 with a `null` body, which is neither
the success JSON object nor the error JSON object. -/
theorem sendOtp_preflight_counterexample :
    ¬((bodyIsSuccess (handler demoPreflightReq demoEnv).response.body = true ∧
          (handler demoPreflightReq demoEnv).response.status = 200) ∨
        (bodyIsError (handler demoPreflightReq demoEnv).response.body = true ∧
          ¬((handler demoPreflightReq demoEnv).response.status = 200))) := by
  decide

/-- C5 amended. Every request other than the `OPTIONS` preflight receives
either the success JSON object with status 200 or an error JSON object
with a non-200 status (400 or 500). -/
theorem handler_response_shape (req : OtpRequest) (env : OtpEnv)
    (h : ¬req.method = "OPTIONS") :
    (bodyIsSuccess (handler req env).response.body = true ∧
        (handler req env).response.status = 200) ∨
      (bodyIsError (handler req env).response.body = true ∧
        ¬((handler req env).response.status = 200)) := by
  obtain ⟨m, body⟩ := req
  rcases body with _ | b
  · simp [handler, if_neg h, bodyIsSuccess, bodyIsError]
  · simp only [handler, if_neg h]
    split_ifs <;> simp [bodyIsSuccess, bodyIsError]

/-- C5 amended, witnessed on a parse-failure request. -/
theorem handler_response_shape_witness :
    ¬(OtpRequest.mk "POST" none).method = "OPTIONS" ∧
      ((bodyIsSuccess (handler (OtpRequest.mk "POST" none) demoEnv).response.body = true ∧
          (handler (OtpRequest.mk "POST" none) demoEnv).response.status = 200) ∨
        (bodyIsError (handler (OtpRequest.mk "POST" none) demoEnv).response.body = true ∧
          ¬((handler (OtpRequest.mk "POST" none) demoEnv).response.status = 200))) :=
  ⟨by decide, handler_response_shape (OtpRequest.mk "POST" none) demoEnv (by decide)⟩

/-- Helper: no request with `contactType = 'phone'` ever receives a
success response, whatever the contact string and the environment: the
handler replies with an error (invalid format, existing user, store
failure, or the unconditional 400 "SMS verification is currently not
available"). -/
theorem phone_requests_all_fail (contact : String) (env : OtpEnv) :
    bodyIsSuccess
      (handler (OtpRequest.mk "POST" (some (SendOTPRequest.mk contact "phone")))
        env).response.body = false := by
  simp only [handler]
  rw [if_neg (by decide : ¬("POST" : String) = "OPTIONS")]
  split_ifs <;> simp_all [bodyIsSuccess]

/-- C6 counterexample. The canonical phone signup request - a well-formed
`+63` ten-digit contact, fresh user, no failures - does not receive a
success response: it is answered with the 400 SMS-unsupported error
(and `phone_requests_all_fail` shows every other phone request fails
too). -/
theorem sendOtp_phone_never_succeeds :
    bodyIsSuccess
        (handler (OtpRequest.mk "POST" (some (SendOTPRequest.mk "+639171234567" "phone")))
          demoEnv).response.body = false ∧
      (handler (OtpRequest.mk "POST" (some (SendOTPRequest.mk "+639171234567" "phone")))
          demoEnv).response.status = 400 := by
  decide

/-- C6 amended. Phone OTP is not supported end to end: a request with a
well-formed `+63` phone contact, a fresh user and a working database
still generates and stores an OTP but is answered with the 400 error
telling the user to use email instead of a success response. -/
theorem sendOtp_phone_stores_but_errors (contact : String) (env : OtpEnv)
    (h1 : phoneFormat contact.data = true) (h2 : env.userExists = false)
    (h3 : env.dbError = false) :
    (handler (OtpRequest.mk "POST" (some (SendOTPRequest.mk contact "phone")))
          env).response
        = OtpResponse.mk 400 (OtpBody.err
            "SMS verification is currently not available. Please use email instead.") ∧
      (handler (OtpRequest.mk "POST" (some (SendOTPRequest.mk contact "phone")))
          env).generated = some (genOtp env.rand) ∧
      (handler (OtpRequest.mk "POST" (some (SendOTPRequest.mk contact "phone")))
          env).stored = some (genOtp env.rand) := by
  have hne : ¬contact = "" := by
    intro hc
    subst hc
    simp [phoneFormat] at h1
  simp only [handler]
  rw [if_neg (by decide : ¬("POST" : String) = "OPTIONS")]
  split_ifs <;> simp_all

/-- C6 amended, witnessed on a well-formed `+63` number. -/
theorem sendOtp_phone_stores_but_errors_witness :
    (phoneFormat ("+639171234567" : String).data = true ∧
        demoEnv.userExists = false ∧ demoEnv.dbError = false) ∧
      ((handler (OtpRequest.mk "POST" (some (SendOTPRequest.mk "+639171234567" "phone")))
            demoEnv).response
          = OtpResponse.mk 400 (OtpBody.err
              "SMS verification is currently not available. Please use email instead.") ∧
        (handler (OtpRequest.mk "POST" (some (SendOTPRequest.mk "+639171234567" "phone")))
            demoEnv).generated = some (genOtp demoEnv.rand) ∧
        (handler (OtpRequest.mk "POST" (some (SendOTPRequest.mk "+639171234567" "phone")))
            demoEnv).stored = some (genOtp demoEnv.rand)) :=
  ⟨⟨by decide, by decide, by decide⟩,
    sendOtp_phone_stores_but_errors "+639171234567" demoEnv (by decide) (by decide) (by decide)⟩

/-- Bounds the floor: `Math.floor(100000 + r * 900000)` lies in `[100000, 999999]` for
`r ∈ [0, 1)`. -/
theorem genOtp_range (r : ℚ) (h0 : 0 ≤ r) (h1 : r < 1) :
    100000 ≤ genOtp r ∧ genOtp r ≤ 999999 := by
  unfold genOtp
  have hlow : (100000 : ℤ) ≤ Int.floor ((100000 : ℚ) + r * 900000) := by
    apply Int.le_floor.mpr
    push_cast
    nlinarith
  have hhigh : Int.floor ((100000 : ℚ) + r * 900000) < 1000000 := by
    apply Int.floor_lt.mpr
    push_cast
    nlinarith
  omega

/-- A number in `[100000, 999999]` has exactly six decimal digits. -/
theorem sixDigits_of_range (o : ℕ) (hlo : 100000 ≤ o) (hhi : o ≤ 999999) :
    (Nat.digits 10 o).length = 6 := by
  rw [Nat.digits_len 10 o (by norm_num) (by omega)]
  have hlog : Nat.log 10 o = 5 :=
    Nat.log_eq_of_pow_le_of_lt_pow (by norm_num; omega) (by norm_num; omega)
  omega

/-- C8. With `Math.random() ∈ [0, 1)`, every OTP the handler generates
is an integer between 100000 and 999999 whose decimal representation has
six digits; whenever a code is stored in `temp_otps` or embedded in the
email it equals the generated code; and every success response reports
`expiresIn = 300`. -/
theorem sendOtp_code_consistency (req : OtpRequest) (env : OtpEnv)
    (h0 : 0 ≤ env.rand) (h1 : env.rand < 1) :
    (∀ o, (handler req env).generated = some o →
        100000 ≤ o ∧ o ≤ 999999 ∧ (Nat.digits 10 o).length = 6 ∧
          ((handler req env).stored = none ∨ (handler req env).stored = some o) ∧
          ((handler req env).emailed = none ∨ (handler req env).emailed = some o)) ∧
      (∀ msg e, (handler req env).response.body = OtpBody.success msg e → e = some 300) := by
  obtain ⟨m, body⟩ := req
  by_cases hm : m = "OPTIONS"
  · subst hm
    constructor
    · intro o ho
      simp [handler] at ho
    · intro msg e he
      simp [handler] at he
  · rcases body with _ | b
    · constructor
      · intro o ho
        simp [handler, hm] at ho
      · intro msg e he
        simp [handler, hm] at he
    · simp only [handler, if_neg hm]
      split_ifs <;>
        refine ⟨fun o ho => ?_, fun msg e he => ?_⟩ <;>
        first
          | (obtain rfl := Option.some.inj ho
             obtain ⟨ha, hb⟩ := genOtp_range env.rand h0 h1
             exact ⟨ha, hb, sixDigits_of_range _ ha hb, by simp, by simp⟩)
          | (injection he with hmsg hexp
             exact hexp.symm)
          | simp at ho
          | simp at he

/-- C8, witnessed on the valid email request with `Math.random() = 1/2`. -/
theorem sendOtp_code_consistency_witness :
    (0 ≤ (OtpEnv.mk false false false (1 / 2)).rand ∧
        (OtpEnv.mk false false false (1 / 2)).rand < 1) ∧
      ((∀ o, (handler demoEmailReq (OtpEnv.mk false false false (1 / 2))).generated = some o →
          100000 ≤ o ∧ o ≤ 999999 ∧ (Nat.digits 10 o).length = 6 ∧
            ((handler demoEmailReq (OtpEnv.mk false false false (1 / 2))).stored = none ∨
              (handler demoEmailReq (OtpEnv.mk false false false (1 / 2))).stored = some o) ∧
            ((handler demoEmailReq (OtpEnv.mk false false false (1 / 2))).emailed = none ∨
              (handler demoEmailReq (OtpEnv.mk false false false (1 / 2))).emailed = some o)) ∧
        (∀ msg e,
          (handler demoEmailReq (OtpEnv.mk false false false (1 / 2))).response.body
            = OtpBody.success msg e → e = some 300)) :=
  ⟨⟨by norm_num, by norm_num⟩,
    sendOtp_code_consistency demoEmailReq (OtpEnv.mk false false false (1 / 2))
      (by norm_num) (by norm_num)⟩

/-! ## Claim C7: effects of the error branches at network call sites -/

/-- A user-interface effect emitted by an error or success branch:
`sonner` toasts are user-visible notifications, `console.error` is not. -/
inductive NotifyEffect where
  | toastError (message : String)
  | toastSuccess (message : String)
  | consoleError (message : String)
deriving Repr, DecidableEq

/-- The network call sites of the embedded components: the four fetches
and the itinerary write of `PersonalizedFeed.tsx`, the fetches of
`RecommendedSpots.tsx` and `NearbyRestaurants`, and the fetch and save
of `Itinerary.tsx`. -/
inductive NetworkCallSite where
  | pfFetchUserPreferences
  | pfFetchSpots
  | pfFetchAccommodations
  | pfFetchRestaurants
  | pfAddToItinerary
  | rsFetchRecommendedSpots
  | nrFetchRestaurants
  | itGenerateItinerary
  | itSaveItinerary
deriving Repr, DecidableEq

/-- The effects each call site's error branch emits, transcribed from the
source: `PersonalizedFeed.tsx` lines 88-90, 114-117, 192-195, 231-234,
332-334; `RecommendedSpots.tsx` lines 107-109 and 276-278 (the
`NearbyRestaurants` half); `Itinerary.tsx` lines 98-101 and 209-211. -/
def onFetchError : NetworkCallSite → List NotifyEffect
  | NetworkCallSite.pfFetchUserPreferences =>
      [NotifyEffect.consoleError "Error fetching preferences:"]
  | NetworkCallSite.pfFetchSpots =>
      [NotifyEffect.consoleError "Error fetching spots:"]
  | NetworkCallSite.pfFetchAccommodations =>
      [NotifyEffect.consoleError "Error fetching accommodations:"]
  | NetworkCallSite.pfFetchRestaurants =>
      [NotifyEffect.consoleError "Error fetching restaurants:"]
  | NetworkCallSite.pfAddToItinerary =>
      [NotifyEffect.consoleError "Error adding to itinerary:"]
  | NetworkCallSite.rsFetchRecommendedSpots =>
      [NotifyEffect.consoleError "Error fetching spots:"]
  | NetworkCallSite.nrFetchRestaurants =>
      [NotifyEffect.consoleError "Error fetching restaurants:"]
  | NetworkCallSite.itGenerateItinerary =>
      [NotifyEffect.toastError "Failed to generate recommendations"]
  | NetworkCallSite.itSaveItinerary =>
      [NotifyEffect.toastError "Failed to save itinerary"]

/-- An effect the user can see. -/
def isUserVisible : NotifyEffect → Bool
  | NotifyEffect.toastError _ => true
  | NotifyEffect.toastSuccess _ => true
  | NotifyEffect.consoleError _ => false

/-- C7 counterexample. The error branch of `PersonalizedFeed.fetchSpots`
(lines 114-117) only logs to the console: it produces no user-visible
notification. -/
theorem fetchSpots_error_not_user_visible :
    (onFetchError NetworkCallSite.pfFetchSpots).any isUserVisible = false := by
  decide

/-- C7 amended. Every network call site catches its error and emits at
least one effect (nothing propagates), but the error surfaces as a
user-visible notification exactly at the two `Itinerary.tsx` sites
(`generateItinerary`, `saveItinerary`); the feed and recommendation
components only log to the console. -/
theorem network_error_effects (site : NetworkCallSite) :
    ¬(onFetchError site = []) ∧
      ((onFetchError site).any isUserVisible = true ↔
        site = NetworkCallSite.itGenerateItinerary ∨
          site = NetworkCallSite.itSaveItinerary) := by
  cases site <;> exact ⟨by decide, by decide⟩

/-- C7 amended, witnessed at `generateItinerary`. -/
theorem network_error_effects_witness :
    ¬(onFetchError NetworkCallSite.itGenerateItinerary = []) ∧
      ((onFetchError NetworkCallSite.itGenerateItinerary).any isUserVisible = true ↔
        NetworkCallSite.itGenerateItinerary = NetworkCallSite.itGenerateItinerary ∨
          NetworkCallSite.itGenerateItinerary = NetworkCallSite.itSaveItinerary) :=
  network_error_effects NetworkCallSite.itGenerateItinerary

/-- C3 amended, witnessed on `Tabaco` (District 1 agreement) and
`Legazpi` (RecommendedSpots / NearbyRestaurants agreement). -/
theorem districtMatch_agreement_witness :
    pfDistrictMatch "District 1" "Tabaco" = rsDistrictMatch "District 1" "Tabaco" ∧
      rsDistrictMatch "District 2" "Legazpi" = nrDistrictMatch ["District 2"] "Legazpi" :=
  ⟨districtMatch_agreement.1 "Tabaco", districtMatch_agreement.2 "District 2" "Legazpi"⟩

/-- Concrete `PersonalizedFeed` preferences for evaluating the ranker. -/
def demoPFPrefs : PFPreferences :=
  PFPreferences.mk (some ["Nature"]) (some ["Hiking"]) (some ["District 3"])

/-- Concrete `RecommendedSpots` preferences for evaluating the ranker. -/
def demoRSPrefs : RSPreferences :=
  RSPreferences.mk (some ["Nature"]) (some ["District 2"])

/-- Two concrete tourist-spot rows. -/
def demoSpotRows : List Spot :=
  [Spot.mk "t1" (some "Legazpi") (some ["Nature", "Hiking"]) 4 true,
   Spot.mk "t2" (some "Tabaco") (some ["Culture"]) 0 false]

/-- C1, witnessed on the concrete preferences and rows. -/
theorem fetchSpots_ranked_truncated_witness :
    ((fetchSpotsRank demoPFPrefs demoSpotRows).length ≤ 6 ∧
      (∀ x ∈ fetchSpotsRank demoPFPrefs demoSpotRows,
        (x.score = pfCategoryWeight demoPFPrefs x.spot +
            pfSubcategoryWeight demoPFPrefs x.spot +
            pfDistrictBonus demoPFPrefs x.spot + pfHiddenGemBonus x.spot +
            pfRatingTerm x.spot) ∧
          0 < x.score) ∧
      (fetchSpotsRank demoPFPrefs demoSpotRows).Pairwise (fun a b => b.score ≤ a.score)) ∧
    ((fetchRecommendedSpotsRank demoRSPrefs demoSpotRows).length ≤ 8 ∧
      (∀ x ∈ fetchRecommendedSpotsRank demoRSPrefs demoSpotRows,
        x.score = rsInterestWeight demoRSPrefs x.spot + rsDistrictBonus demoRSPrefs x.spot +
          rsHiddenGemBonus x.spot + rsRatingTerm x.spot) ∧
      (fetchRecommendedSpotsRank demoRSPrefs demoSpotRows).Pairwise
        (fun a b => b.score ≤ a.score)) :=
  fetchSpots_ranked_truncated demoPFPrefs demoRSPrefs demoSpotRows demoSpotRows
